import Mathlib

/-!
Shallow embedding of two pieces of the repository:

* the `model` package's channel-bookmark record (validation, pre-save /
  pre-update timestamp bookkeeping, and the Etag fingerprint); the record
  type itself lives in `channel_bookmark.go`, which is absent from the
  sources, so those operations are modelled from the specification and
  checked for consistency with `channel_bookmark_test.go`;
* the `mailservice` package's SMTP send path (`mail.go`), embedded with the
  external world (dialer, SMTP server, html-to-text converter) represented
  as explicit behaviour oracles so that the pure control flow of the Go
  functions is captured exactly.
-/

namespace Spec2Proof

/-! ## Channel bookmark data model -/

/-- Modelled from the spec: `IsValidId` of the `model` package
(`channel_bookmark.go` and its helpers are not among the sources).  The
spec only says identifiers are "format-validated"; Mattermost ids are
26-character alphanumeric strings, which matches the tests, where
`NewId()` values are accepted and `""` and `"invalid"` are rejected. -/
def IsValidId (s : String) : Bool :=
  s.length = 26 && s.data.all (fun c => c.isAlphanum)

/-- `strStarts p s` holds when the character list `p` begins the character
list `s` (the scheme check of `IsValidHttpUrl`, at the level of `List Char`
so that it evaluates by `decide`). -/
def strStarts : List Char → List Char → Bool
  | [], _ => true
  | _ :: _, [] => false
  | p :: ps, c :: cs => p = c && strStarts ps cs

/-- Modelled from the spec: "a well-formed URL" for link-type bookmarks.
A URL is taken to be well-formed when it carries an http or https scheme;
this matches every accepted and rejected URL of the tests. -/
def IsValidHttpUrl (s : String) : Bool :=
  strStarts "http://".data s.data || strStarts "https://".data s.data

/-- Type tag of a link-backed bookmark. -/
def ChannelBookmarkLink : String := "link"

/-- Type tag of a file-backed bookmark. -/
def ChannelBookmarkFile : String := "file"

/-- Modelled from the spec: the bookmark record of `channel_bookmark.go`
(absent from the sources); fields are those exercised by
`channel_bookmark_test.go`.  Timestamps are milliseconds, kept as `Nat`. -/
structure ChannelBookmark where
  Id : String := ""
  CreateAt : Nat := 0
  UpdateAt : Nat := 0
  DeleteAt : Nat := 0
  ChannelId : String := ""
  OwnerId : String := ""
  FileId : String := ""
  DisplayName : String := ""
  SortOrder : Int := 0
  LinkUrl : String := ""
  ImageUrl : String := ""
  Emoji : String := ""
  «Type» : String := ""
  OriginalId : String := ""
  ParentId : String := ""

/-- Modelled from the spec: `ChannelBookmark.IsValid`
(`channel_bookmark.go` is not among the sources).  Returns `none` when the
record is valid and the first validation failure otherwise, checking, in
the spec's order: identifier, owner and channel references, display name,
type tag, the type-specific required field (link URL or file id, with the
optional image URL of a link), the optional cross-reference fields, and
finally the creation and update timestamps.  Consistent with every case of
`TestChannelBookmarkIsValid`. -/
def ChannelBookmark.IsValid (o : ChannelBookmark) : Option String :=
  if IsValidId o.Id = false then some "id"
  else if IsValidId o.OwnerId = false then some "owner_id"
  else if IsValidId o.ChannelId = false then some "channel_id"
  else if o.DisplayName = "" then some "display_name"
  else if ¬(o.«Type» = ChannelBookmarkLink ∨ o.«Type» = ChannelBookmarkFile) then some "type"
  else if o.«Type» = ChannelBookmarkLink ∧ IsValidHttpUrl o.LinkUrl = false then some "link_url"
  else if o.«Type» = ChannelBookmarkLink ∧ o.ImageUrl ≠ "" ∧ IsValidHttpUrl o.ImageUrl = false then
    some "image_url"
  else if o.«Type» = ChannelBookmarkFile ∧ IsValidId o.FileId = false then some "file_id"
  else if o.OriginalId ≠ "" ∧ IsValidId o.OriginalId = false then some "original_id"
  else if o.ParentId ≠ "" ∧ IsValidId o.ParentId = false then some "parent_id"
  else if o.CreateAt = 0 then some "create_at"
  else if o.UpdateAt = 0 then some "update_at"
  else none

/-- Modelled from the spec: `ChannelBookmark.PreSave` sets the creation and
update timestamps to the current time on first save (`channel_bookmark.go`
is not among the sources).  The clock reading is passed explicitly as
`now`. -/
def ChannelBookmark.PreSave (o : ChannelBookmark) (now : Nat) : ChannelBookmark :=
  { o with CreateAt := now, UpdateAt := now }

/-- Modelled from the spec: `ChannelBookmark.PreUpdate` advances only the
update timestamp (`channel_bookmark.go` is not among the sources).  The
spec guarantees the advance is strict at the step itself — "update
timestamp advanced (strictly greater, monotonic)" — and
`TestChannelBookmarkPreUpdate` asserts strictness for back-to-back calls
to `PreSave` and `PreUpdate`, so the operation takes the clock reading
`now` but never a value below one past the stored timestamp. -/
def ChannelBookmark.PreUpdate (o : ChannelBookmark) (now : Nat) : ChannelBookmark :=
  { o with UpdateAt := max now (o.UpdateAt + 1) }

/-- The decimal digit characters in order. -/
def digitChars : List Char := "0123456789".data

/-- Decimal digit character for a digit value (`'0'` for out-of-range
values, which the callers never produce). -/
def digitChar (d : Nat) : Char := digitChars.getD d '0'

/-- Numeric value of a decimal digit character. -/
def charToDigit (c : Char) : Nat := c.toNat - 48

/-- Decimal rendering of a natural number as a character list, most
significant digit first (the `%v` formatting of the update timestamp used
by the Etag helper). -/
def natChars (n : Nat) : List Char :=
  if _h : n < 10 then [digitChar n]
  else natChars (n / 10) ++ [digitChar (n % 10)]
decreasing_by exact Nat.div_lt_self (by omega) (by omega)

/-- Value of a digit list read back as a decimal numeral. -/
def charsVal (l : List Char) : Nat :=
  l.foldl (fun a c => a * 10 + charToDigit c) 0

/-- Modelled from the spec: `ChannelBookmark.Etag`, the deterministic
fingerprint derived from the identifier and the update timestamp
(`channel_bookmark.go` and the `Etag` helper are not among the sources;
the spec leaves the format open, the helper joins its parts with dots). -/
def ChannelBookmark.Etag (o : ChannelBookmark) : String :=
  String.mk (o.Id.data ++ '.' :: natChars o.UpdateAt)

/-- A 26-letter lowercase string, a well-formed id for concrete test
records (the tests use `NewId()` values of the same shape). -/
def goodId : String := "abcdefghijklmnopqrstuvwxyz"

example : IsValidId goodId = true := by decide
example : IsValidId "invalid" = false := by decide
example : IsValidId "" = false := by decide
example : IsValidHttpUrl "https://mattermost.com" = true := by decide
example : IsValidHttpUrl "invalid" = false := by decide

/-! ## Mailservice (`mail.go`)

The Go functions perform network and library calls whose outcomes are not
determined by the program; each such call site is represented by an
explicit outcome in a behaviour record (`NetBehavior`, `ClientBehavior`),
and the Lean functions reproduce the Go control flow over those outcomes.
Errors are strings; `errors.Wrap err msg` yields `msg ++ ": " ++ err`. -/

/-- `errors.Wrap`: prepend a phase-identifying message to a cause. -/
def wrap (msg cause : String) : String := msg ++ ": " ++ cause

/-- `mail.go` constant `connSecurityTls`. -/
def connSecurityTls : String := "TLS"

/-- `mail.go` constant `connSecurityStarttls`. -/
def connSecurityStarttls : String := "STARTTLS"

/-- `SMTPConfig` of `mail.go` (string and boolean fields as in the Go
struct; `ServerTimeout` in seconds). -/
structure SMTPConfig where
  ConnectionSecurity : String := ""
  SkipServerCertificateVerification : Bool := false
  Hostname : String := ""
  Server : String := ""
  Port : String := ""
  ServerTimeout : Nat := 0
  Username : String := ""
  Password : String := ""
  EnableSMTPAuth : Bool := false
  SendEmailNotifications : Bool := false
  FeedbackName : String := ""
  FeedbackEmail : String := ""
  ReplyToAddress : String := ""

/-- `mailData` of `mail.go`; embedded files are kept by name and the
extra MIME headers as key/value pairs. -/
structure mailData where
  mimeTo : String := ""
  smtpTo : String := ""
  «from» : String := ""
  cc : String := ""
  replyTo : String := ""
  subject : String := ""
  htmlBody : String := ""
  embeddedFiles : List String := []
  mimeHeaders : List (String × String) := []

/-- `SmtpConnectionInfo` of `mail.go`. -/
structure SmtpConnectionInfo where
  SmtpUsername : String := ""
  SmtpPassword : String := ""
  SmtpServerName : String := ""
  SmtpServerHost : String := ""
  SmtpPort : String := ""
  SmtpServerTimeout : Nat := 0
  SkipCertVerification : Bool := false
  ConnectionSecurity : String := ""
  Auth : Bool := false

/-- `smtp.ServerInfo` as seen by an `smtp.Auth` mechanism: the negotiated
server name, whether the session is encrypted, and the advertised
authentication methods. -/
structure ServerInfo where
  Name : String := ""
  TLS : Bool := false
  Auth : List String := []

/-- `loginAuth` of `mail.go`. -/
structure loginAuth where
  username : String := ""
  password : String := ""
  host : String := ""

/-- `LoginAuth` constructor of `mail.go`. -/
def LoginAuth (username password host : String) : loginAuth :=
  { username := username, password := password, host := host }

/-- `loginAuth.Start` of `mail.go`: refuse an unencrypted session, refuse
a server name different from the expected host, otherwise announce the
`LOGIN` mechanism with an empty initial response. -/
def loginAuth.Start (a : loginAuth) (server : ServerInfo) :
    Except String (String × List Nat) :=
  if server.TLS = false then .error "unencrypted connection"
  else if server.Name ≠ a.host then .error "wrong host name"
  else .ok ("LOGIN", [])

/-- The two authentication strategies `authChooser.Start` can select:
`mail.go`'s own `loginAuth` or the standard library's PLAIN mechanism. -/
inductive AuthMech where
  | login (username password host : String)
  | plain (identity username password host : String)
deriving DecidableEq

/-- The selection loop of `authChooser.Start`: starting from the LOGIN
mechanism, scan the advertised methods and switch to PLAIN at the first
`"PLAIN"`, stopping there. -/
def authChooserLoop (plainMech loginMech : AuthMech) : List String → AuthMech
  | [] => loginMech
  | m :: rest =>
    if m = "PLAIN" then plainMech else authChooserLoop plainMech loginMech rest

/-- The mechanism selected by `authChooser.Start` of `mail.go` for given
connection info and advertised methods. -/
def authChooser.selected (info : SmtpConnectionInfo) (methods : List String) : AuthMech :=
  authChooserLoop
    (.plain "" info.SmtpUsername info.SmtpPassword (info.SmtpServerName ++ ":" ++ info.SmtpPort))
    (.login info.SmtpUsername info.SmtpPassword (info.SmtpServerName ++ ":" ++ info.SmtpPort))
    methods

/-- `Start` of the selected mechanism: `loginAuth.Start` is `mail.go`
code and is run; the standard library PLAIN exchange is outside the
sources and its outcome is the oracle `plainStart`. -/
def AuthMech.start (mech : AuthMech) (server : ServerInfo)
    (plainStart : Except String String) : Except String String :=
  match mech with
  | .login u p h => (loginAuth.Start (LoginAuth u p h) server).map Prod.fst
  | .plain _ _ _ _ => plainStart

/-- `authChooser.Start` of `mail.go`: select the mechanism from the
server's advertised methods, then run its `Start`. -/
def authChooser.Start (info : SmtpConnectionInfo) (server : ServerInfo)
    (plainStart : Except String String) : Except String String :=
  (authChooser.selected info server.Auth).start server plainStart

/-- Outcome of the raced client-handshake setup in
`NewSMTPClientAdvanced`: either the `smtp.NewClient` goroutine reports an
error on the channel, or `ctx.Done()` fires first and `ctx.Err()` carries
the given message (`none` for a nil error).  The success path is
`ctxDone (some "context canceled")`: the goroutine finished and called
`cancel()`. -/
inductive SetupOutcome where
  | clientErr (msg : String)
  | ctxDone (msg : Option String)

/-- Outcomes of the external calls made on one connection attempt. -/
structure NetBehavior where
  dialResult : Except String Unit := .ok ()
  setup : SetupOutcome := .ctxDone (some "context canceled")
  helloResult : Except String Unit := .ok ()
  startTLSResult : Except String Unit := .ok ()
  serverInfo : ServerInfo := {}
  plainStartResult : Except String String := .ok "PLAIN"
  authWireResult : Except String Unit := .ok ()

/-- Outcomes of the `smtpClient` calls made by `SendMail`. -/
structure ClientBehavior where
  mailResult : Except String Unit := .ok ()
  rcptResult : Except String Unit := .ok ()
  dataResult : Except String Unit := .ok ()
  writeResult : Except String Unit := .ok ()
  closeResult : Except String Unit := .ok ()

/-- `ConnectToSMTPServerAdvanced` of `mail.go`: dial (over TLS when the
security mode is `TLS`), wrapping a failure with the branch's message. -/
def ConnectToSMTPServerAdvanced (info : SmtpConnectionInfo) (net : NetBehavior) :
    Except String Unit :=
  if info.ConnectionSecurity = connSecurityTls then
    match net.dialResult with
    | .error e => .error (wrap "unable to connect to the SMTP server through TLS" e)
    | .ok _ => .ok ()
  else
    match net.dialResult with
    | .error e => .error (wrap "unable to connect to the SMTP server" e)
    | .ok _ => .ok ()

/-- The `SmtpConnectionInfo` built by `ConnectToSMTPServer` of `mail.go`
(no credentials, `Auth` left false). -/
def connectInfoOfConfig (config : SMTPConfig) : SmtpConnectionInfo :=
  { ConnectionSecurity := config.ConnectionSecurity
    SkipCertVerification := config.SkipServerCertificateVerification
    SmtpServerName := config.Server
    SmtpServerHost := config.Server
    SmtpPort := config.Port
    SmtpServerTimeout := config.ServerTimeout }

/-- `ConnectToSMTPServer` of `mail.go`. -/
def ConnectToSMTPServer (config : SMTPConfig) (net : NetBehavior) : Except String Unit :=
  ConnectToSMTPServerAdvanced (connectInfoOfConfig config) net

/-- The `select` over `ctx.Done()` and the error channel in
`NewSMTPClientAdvanced` of `mail.go`: a goroutine error is wrapped; when
the context finishes, its error is wrapped unless it is nil or its message
is exactly `"context canceled"`, in which case setup counts as
successful. -/
def setupPhase : SetupOutcome → Except String Unit
  | .clientErr e => .error (wrap "unable to connect to the SMTP server" e)
  | .ctxDone none => .ok ()
  | .ctxDone (some msg) =>
    if msg ≠ "context canceled" then
      .error (wrap "unable to connect to the SMTP server" msg)
    else .ok ()

/-- `NewSMTPClientAdvanced` of `mail.go`: raced client setup, optional
`Hello`, a `StartTLS` call in `STARTTLS` mode whose error return the code
does not inspect, then optional authentication via `authChooser`. -/
def NewSMTPClientAdvanced (hostname : String) (info : SmtpConnectionInfo)
    (net : NetBehavior) : Except String Unit :=
  match setupPhase net.setup with
  | .error e => .error e
  | .ok _ =>
    match (if hostname ≠ "" then net.helloResult else .ok ()) with
    | .error e => .error (wrap "unable to send hello message" e)
    | .ok _ =>
      -- c.StartTLS(tlsconfig) is called in STARTTLS mode; its error return
      -- is discarded by the Go code, so the outcome is not inspected here.
      let _ : Option (Except String Unit) :=
        if info.ConnectionSecurity = connSecurityStarttls then some net.startTLSResult else none
      if info.Auth then
        match authChooser.Start info net.serverInfo net.plainStartResult with
        | .error e => .error (wrap "authentication failed" e)
        | .ok _ =>
          match net.authWireResult with
          | .error e => .error (wrap "authentication failed" e)
          | .ok _ => .ok ()
      else .ok ()

/-- The `SmtpConnectionInfo` built by `NewSMTPClient` of `mail.go`
(credentials and `Auth` included). -/
def clientInfoOfConfig (config : SMTPConfig) : SmtpConnectionInfo :=
  { ConnectionSecurity := config.ConnectionSecurity
    SkipCertVerification := config.SkipServerCertificateVerification
    SmtpServerName := config.Server
    SmtpServerHost := config.Server
    SmtpPort := config.Port
    SmtpServerTimeout := config.ServerTimeout
    Auth := config.EnableSMTPAuth
    SmtpUsername := config.Username
    SmtpPassword := config.Password }

/-- `NewSMTPClient` of `mail.go`. -/
def NewSMTPClient (config : SMTPConfig) (net : NetBehavior) : Except String Unit :=
  NewSMTPClientAdvanced config.Hostname (clientInfoOfConfig config) net

/-- `TestConnection` of `mail.go`: refuse outright when email
notifications are disabled, otherwise connect and set up a client,
wrapping either failure with "unable to connect". -/
def TestConnection (config : SMTPConfig) (net : NetBehavior) : Except String Unit :=
  if config.SendEmailNotifications = false then
    .error "SendEmailNotifications is not true"
  else
    match ConnectToSMTPServer config net with
    | .error e => .error (wrap "unable to connect" e)
    | .ok _ =>
      match NewSMTPClient config net with
      | .error e => .error (wrap "unable to connect" e)
      | .ok _ => .ok ()

/-- The MIME document composed and transmitted by `SendMail`. -/
structure MimeMessage where
  fromHeader : String := ""
  toHeader : String := ""
  subject : String := ""
  plainBody : String := ""
  htmlPart : String := ""

/-- `SendMail` of `mail.go`: build the HTML part, derive the plain-text
alternative (an empty string when the html2text conversion — the oracle
`conv` — fails, with only a logged warning), then issue `Mail`, `Rcpt`,
`Data`, write the message and close the stream, wrapping the first
failure with its phase message.  On success the transmitted document is
returned. -/
def SendMail (c : ClientBehavior) (m : mailData) (conv : Except String String) :
    Except String MimeMessage :=
  let htmlMessage := "\r\n<html><body>" ++ m.htmlBody ++ "</body></html>"
  let txtBody := match conv with
    | .error _ => ""
    | .ok t => t
  let msg : MimeMessage :=
    { fromHeader := m.«from», toHeader := m.mimeTo, subject := m.subject
      plainBody := txtBody, htmlPart := htmlMessage }
  match c.mailResult with
  | .error e => .error (wrap "failed to set the from address" e)
  | .ok _ =>
    match c.rcptResult with
    | .error e => .error (wrap "failed to set the to address" e)
    | .ok _ =>
      match c.dataResult with
      | .error e => .error (wrap "failed to add email message data" e)
      | .ok _ =>
        match c.writeResult with
        | .error e => .error (wrap "failed to write the email message" e)
        | .ok _ =>
          match c.closeResult with
          | .error e => .error (wrap "failed to close connection to the SMTP server" e)
          | .ok _ => .ok msg

/-- `sendMailUsingConfigAdvanced` of `mail.go`: an empty server address
returns success immediately (`ok none`); otherwise connect, set up the
client and send, passing errors through unchanged. -/
def sendMailUsingConfigAdvanced (m : mailData) (config : SMTPConfig)
    (net : NetBehavior) (client : ClientBehavior) (conv : Except String String) :
    Except String (Option MimeMessage) :=
  if config.Server = "" then .ok none
  else
    match ConnectToSMTPServer config net with
    | .error e => .error e
    | .ok _ =>
      match NewSMTPClient config net with
      | .error e => .error e
      | .ok _ =>
        match SendMail client m conv with
        | .error e => .error e
        | .ok msg => .ok (some msg)

/-- Whether an `Except` result is a success (a nil Go error). -/
def exceptOk {ε α : Type} : Except ε α → Bool
  | .ok _ => true
  | .error _ => false

/-- A bookmark record satisfying every condition of the claim's success
direction — well-formed id, owner and channel, non-empty display name,
non-zero timestamps, link type with a well-formed URL — whose optional
image URL is malformed. -/
def linkWithBadImage : ChannelBookmark :=
  { Id := goodId, OwnerId := goodId, ChannelId := goodId
    DisplayName := "display name", LinkUrl := "https://mattermost.com"
    ImageUrl := "invalid", «Type» := ChannelBookmarkLink
    CreateAt := 2, UpdateAt := 3, DeleteAt := 4 }

/-! ## Theorems for the claims -/

/-- C1 counterexample: a record with a well-formed identifier, owner and
channel, a non-empty display name, non-zero timestamps and link type with
a well-formed URL on which validation nevertheless fails, because the
optional image URL is malformed (mirroring the test case "bookmark of
type link with invalid image url"). -/
theorem isValid_claim_counterexample :
    IsValidId linkWithBadImage.Id = true ∧
    IsValidId linkWithBadImage.OwnerId = true ∧
    IsValidId linkWithBadImage.ChannelId = true ∧
    linkWithBadImage.DisplayName ≠ "" ∧
    linkWithBadImage.CreateAt ≠ 0 ∧ linkWithBadImage.UpdateAt ≠ 0 ∧
    linkWithBadImage.«Type» = ChannelBookmarkLink ∧
    IsValidHttpUrl linkWithBadImage.LinkUrl = true ∧
    linkWithBadImage.IsValid ≠ none := by decide

/-- An if-chain returning a first error is `none` exactly when the
condition fails and the rest is `none`. -/
theorem ite_some_none_iff {a : Type} (c : Prop) [Decidable c] (x : a) (e : Option a) :
    (if c then some x else e) = none ↔ ¬c ∧ e = none := by
  by_cases h : c <;> simp [h]

set_option maxHeartbeats 1000000 in
/-- C1 (amended): validation succeeds exactly when the identifier, owner
and channel are well-formed, the display name is non-empty, the type tag
is link or file, the type-specific required field is well-formed (link
URL, or file reference), each optional field (image URL of a link,
original id, parent id) is empty or well-formed, and both timestamps are
non-zero; in particular every record missing one of those conditions —
including a file-type record lacking a well-formed file reference —
fails validation. -/
theorem isValid_none_iff (o : ChannelBookmark) :
    o.IsValid = none ↔
      (IsValidId o.Id = true ∧ IsValidId o.OwnerId = true ∧
       IsValidId o.ChannelId = true ∧ o.DisplayName ≠ "" ∧
       (o.«Type» = ChannelBookmarkLink ∨ o.«Type» = ChannelBookmarkFile) ∧
       (o.«Type» = ChannelBookmarkLink → IsValidHttpUrl o.LinkUrl = true) ∧
       (o.«Type» = ChannelBookmarkLink → o.ImageUrl = "" ∨ IsValidHttpUrl o.ImageUrl = true) ∧
       (o.«Type» = ChannelBookmarkFile → IsValidId o.FileId = true) ∧
       (o.OriginalId = "" ∨ IsValidId o.OriginalId = true) ∧
       (o.ParentId = "" ∨ IsValidId o.ParentId = true) ∧
       o.CreateAt ≠ 0 ∧ o.UpdateAt ≠ 0) := by
  unfold ChannelBookmark.IsValid
  simp only [ite_some_none_iff, and_true, Bool.not_eq_false, not_and, not_or, not_not,
    ne_eq]
  constructor
  · intro hyp
    tauto
  · intro hyp
    tauto

/-- C5: applying `PreSave` to a fresh record (zero timestamps) sets both
the creation and the update timestamp to non-zero values and leaves every
other field of the record unchanged. -/
theorem preSave_fresh_stamps_and_frame (o : ChannelBookmark) (now : Nat)
    (_hc : o.CreateAt = 0) (_hu : o.UpdateAt = 0) (hnow : 0 < now) :
    (o.PreSave now).CreateAt ≠ 0 ∧ (o.PreSave now).UpdateAt ≠ 0 ∧
    (o.PreSave now).Id = o.Id ∧ (o.PreSave now).DeleteAt = o.DeleteAt ∧
    (o.PreSave now).ChannelId = o.ChannelId ∧ (o.PreSave now).OwnerId = o.OwnerId ∧
    (o.PreSave now).FileId = o.FileId ∧ (o.PreSave now).DisplayName = o.DisplayName ∧
    (o.PreSave now).SortOrder = o.SortOrder ∧ (o.PreSave now).LinkUrl = o.LinkUrl ∧
    (o.PreSave now).ImageUrl = o.ImageUrl ∧ (o.PreSave now).Emoji = o.Emoji ∧
    (o.PreSave now).«Type» = o.«Type» ∧ (o.PreSave now).OriginalId = o.OriginalId ∧
    (o.PreSave now).ParentId = o.ParentId := by
  refine ⟨?_, ?_, rfl, rfl, rfl, rfl, rfl, rfl, rfl, rfl, rfl, rfl, rfl, rfl, rfl⟩ <;>
    simp [ChannelBookmark.PreSave] <;> omega

/-- Witness for C5 at a concrete fresh record and clock reading. -/
theorem preSave_fresh_stamps_and_frame_witness :
    ({ Id := goodId } : ChannelBookmark).CreateAt = 0 ∧
    ({ Id := goodId } : ChannelBookmark).UpdateAt = 0 ∧ 0 < 7 ∧
    (({ Id := goodId } : ChannelBookmark).PreSave 7).CreateAt ≠ 0 :=
  ⟨rfl, rfl, by omega,
    (preSave_fresh_stamps_and_frame { Id := goodId } 7 rfl rfl (by omega)).1⟩

/-- C3: after `PreSave`, a subsequent `PreUpdate` — at any clock reading,
including one within the same instant as the save — sets the update
timestamp to a value strictly greater than its previous value and leaves
the creation timestamp unchanged. -/
theorem preUpdate_after_preSave (o : ChannelBookmark) (t1 t2 : Nat) :
    ((o.PreSave t1).PreUpdate t2).UpdateAt > (o.PreSave t1).UpdateAt ∧
    ((o.PreSave t1).PreUpdate t2).CreateAt = (o.PreSave t1).CreateAt := by
  refine ⟨?_, rfl⟩
  simp only [ChannelBookmark.PreSave, ChannelBookmark.PreUpdate]
  omega

/-- The digit characters produced by `digitChar` are never the dot. -/
theorem digitChar_ne_dot (d : Nat) : digitChar d ≠ '.' := by
  by_cases h : d < 10
  · interval_cases d <;> decide
  · have hlen : digitChars.length ≤ d := by
      have h10 : digitChars.length = 10 := by decide
      omega
    unfold digitChar
    rw [List.getD_eq_default _ _ hlen]
    decide

/-- Reading back the digit character of a digit value. -/
theorem charToDigit_digitChar (d : Nat) (h : d < 10) : charToDigit (digitChar d) = d := by
  interval_cases d <;> decide

/-- The dot never occurs in the decimal rendering of a natural number. -/
theorem dot_not_mem_natChars (n : Nat) : '.' ∉ natChars n := by
  induction n using Nat.strong_induction_on with
  | _ n ih =>
    rw [natChars]
    split
    · simpa using (digitChar_ne_dot n).symm
    · rename_i hn
      intro hmem
      rcases List.mem_append.mp hmem with hmem | hmem
      · exact ih (n / 10) (Nat.div_lt_self (by omega) (by omega)) hmem
      · exact digitChar_ne_dot (n % 10) (List.mem_singleton.mp hmem).symm

/-- Reading the decimal rendering back yields the original number. -/
theorem charsVal_natChars (n : Nat) : charsVal (natChars n) = n := by
  induction n using Nat.strong_induction_on with
  | _ n ih =>
    rw [natChars]
    split
    · rename_i hn
      simp [charsVal, charToDigit_digitChar n hn]
    · rename_i hn
      have hrec := ih (n / 10) (Nat.div_lt_self (by omega) (by omega))
      have hmod : n % 10 < 10 := Nat.mod_lt _ (by omega)
      simp only [charsVal, List.foldl_append, List.foldl_cons, List.foldl_nil]
      simp only [charsVal] at hrec
      rw [hrec, charToDigit_digitChar _ hmod]
      omega

/-- Splitting a list at a separator absent from both right parts is
unique. -/
theorem append_sep_inj {α : Type} (a : α) :
    ∀ (l1 l2 : List α) {r1 r2 : List α}, a ∉ r1 → a ∉ r2 →
      l1 ++ a :: r1 = l2 ++ a :: r2 → l1 = l2 ∧ r1 = r2 := by
  intro l1
  induction l1 with
  | nil =>
    intro l2 r1 r2 h1 h2 heq
    cases l2 with
    | nil => simpa using heq
    | cons c t =>
      simp only [List.nil_append, List.cons_append, List.cons.injEq] at heq
      exact absurd (heq.2 ▸ List.mem_append_right t (List.mem_cons_self a r2))
        (heq.1 ▸ h1)
  | cons c t ih =>
    intro l2 r1 r2 h1 h2 heq
    cases l2 with
    | nil =>
      simp only [List.nil_append, List.cons_append, List.cons.injEq] at heq
      exact absurd (heq.2.symm ▸ List.mem_append_right t (List.mem_cons_self a r1))
        (heq.1.symm ▸ h2)
    | cons c2 t2 =>
      simp only [List.cons_append, List.cons.injEq] at heq
      obtain ⟨ht, hr⟩ := ih t2 h1 h2 heq.2
      exact ⟨by rw [heq.1, ht], hr⟩

/-- C4: two bookmark records have equal Etag fingerprints exactly when
their identifiers and their update timestamps are pairwise equal; the
fingerprint is a function of those two fields alone, so it changes
whenever either changes and is otherwise stable. -/
theorem etag_eq_iff (b1 b2 : ChannelBookmark) :
    b1.Etag = b2.Etag ↔ b1.Id = b2.Id ∧ b1.UpdateAt = b2.UpdateAt := by
  constructor
  · intro h
    have hdata : b1.Id.data ++ '.' :: natChars b1.UpdateAt =
        b2.Id.data ++ '.' :: natChars b2.UpdateAt := by
      have := congrArg String.data h
      simpa [ChannelBookmark.Etag] using this
    obtain ⟨hid, hnum⟩ := append_sep_inj '.' b1.Id.data b2.Id.data
      (dot_not_mem_natChars _) (dot_not_mem_natChars _) hdata
    refine ⟨?_, ?_⟩
    · calc b1.Id = String.mk b1.Id.data := rfl
        _ = String.mk b2.Id.data := by rw [hid]
        _ = b2.Id := rfl
    · have := congrArg charsVal hnum
      rwa [charsVal_natChars, charsVal_natChars] at this
  · rintro ⟨hid, hupd⟩
    simp [ChannelBookmark.Etag, hid, hupd]

/-- The connection info of the C2 failing input: STARTTLS security mode,
no authentication. -/
def starttlsInfo : SmtpConnectionInfo :=
  { ConnectionSecurity := connSecurityStarttls
    SmtpServerName := "mail.example.com", SmtpPort := "587" }

/-- The network behaviour of the C2 failing input: client setup and
greeting succeed, the STARTTLS upgrade fails. -/
def starttlsFailNet : NetBehavior :=
  { startTLSResult := .error "tls: handshake failure" }

/-- C2: evaluation at the failing input.  `NewSMTPClientAdvanced` in
STARTTLS mode returns success although the TLS upgrade failed, and its
result does not depend on the upgrade's outcome at all — the error
return of `c.StartTLS` is discarded, so a TLS-upgrade failure is never
surfaced as a wrapped error, contrary to the claim. -/
theorem starttls_failure_silently_ignored :
    starttlsFailNet.startTLSResult = .error "tls: handshake failure" ∧
    NewSMTPClientAdvanced "webserver" starttlsInfo starttlsFailNet = .ok () ∧
    (∀ r : Except String Unit,
      NewSMTPClientAdvanced "webserver" starttlsInfo
        { starttlsFailNet with startTLSResult := r } = .ok ()) :=
  ⟨rfl, rfl, fun _ => rfl⟩

/-- C6: the LOGIN exchange start is rejected when the session is not
encrypted, rejected when the negotiated server name differs from the
expected host, and otherwise succeeds announcing the `LOGIN` mechanism. -/
theorem loginAuth_start_cases (a : loginAuth) (server : ServerInfo) :
    (server.TLS = false → loginAuth.Start a server = .error "unencrypted connection") ∧
    (server.TLS = true → server.Name ≠ a.host →
      loginAuth.Start a server = .error "wrong host name") ∧
    (server.TLS = true → server.Name = a.host →
      loginAuth.Start a server = .ok ("LOGIN", [])) := by
  refine ⟨fun h => ?_, fun ht hn => ?_, fun ht hn => ?_⟩ <;>
    simp [loginAuth.Start, *]

/-- Witness for C6: a TLS session with the matching host succeeds, and an
unencrypted session is rejected, at concrete inputs. -/
theorem loginAuth_start_cases_witness :
    ({ Name := "h", TLS := true } : ServerInfo).TLS = true ∧
    ({ Name := "h", TLS := true } : ServerInfo).Name = (LoginAuth "u" "p" "h").host ∧
    loginAuth.Start (LoginAuth "u" "p" "h") { Name := "h", TLS := true } =
      .ok ("LOGIN", []) ∧
    ({ Name := "h" } : ServerInfo).TLS = false ∧
    loginAuth.Start (LoginAuth "u" "p" "h") { Name := "h" } =
      .error "unencrypted connection" :=
  ⟨rfl, rfl,
    (loginAuth_start_cases (LoginAuth "u" "p" "h") { Name := "h", TLS := true }).2.2 rfl rfl,
    rfl,
    (loginAuth_start_cases (LoginAuth "u" "p" "h") { Name := "h" }).1 rfl⟩

/-- The selection loop returns the PLAIN mechanism exactly when `"PLAIN"`
occurs among the advertised methods, and the initial LOGIN mechanism
otherwise. -/
theorem authChooserLoop_mem (plainMech loginMech : AuthMech) :
    ∀ methods : List String,
      ("PLAIN" ∈ methods → authChooserLoop plainMech loginMech methods = plainMech) ∧
      ("PLAIN" ∉ methods → authChooserLoop plainMech loginMech methods = loginMech) := by
  intro methods
  induction methods with
  | nil => exact ⟨fun h => absurd h (List.not_mem_nil _), fun _ => rfl⟩
  | cons m rest ih =>
    constructor
    · intro hmem
      by_cases hm : m = "PLAIN"
      · simp [authChooserLoop, hm]
      · have hrest : "PLAIN" ∈ rest := by
          rcases List.mem_cons.mp hmem with h | h
          · exact absurd h.symm hm
          · exact h
        simpa [authChooserLoop, hm] using ih.1 hrest
    · intro hmem
      have hm : m ≠ "PLAIN" := fun h => hmem (h ▸ List.mem_cons_self m rest)
      have hrest : "PLAIN" ∉ rest := fun h => hmem (List.mem_cons_of_mem m h)
      simpa [authChooserLoop, hm] using ih.2 hrest

/-- C7: `authChooser` selects the PLAIN mechanism if and only if the
server advertises `"PLAIN"` among its authentication methods, and the
LOGIN-challenge mechanism otherwise (both over the
username/password/server-address of the connection info). -/
theorem authChooser_selected_cases (info : SmtpConnectionInfo) (methods : List String) :
    ("PLAIN" ∈ methods → authChooser.selected info methods =
      .plain "" info.SmtpUsername info.SmtpPassword
        (info.SmtpServerName ++ ":" ++ info.SmtpPort)) ∧
    ("PLAIN" ∉ methods → authChooser.selected info methods =
      .login info.SmtpUsername info.SmtpPassword
        (info.SmtpServerName ++ ":" ++ info.SmtpPort)) := by
  unfold authChooser.selected
  exact authChooserLoop_mem _ _ methods

/-- Witness for C7: at concrete method lists with and without `"PLAIN"`,
the selection is PLAIN and LOGIN respectively. -/
theorem authChooser_selected_cases_witness :
    "PLAIN" ∈ ["LOGIN", "PLAIN"] ∧
    authChooser.selected { } ["LOGIN", "PLAIN"] = .plain "" "" "" ":" ∧
    "PLAIN" ∉ ["CRAM-MD5"] ∧
    authChooser.selected { } ["CRAM-MD5"] = .login "" "" ":" :=
  ⟨by simp, (authChooser_selected_cases { } ["LOGIN", "PLAIN"]).1 (by simp),
    by simp, (authChooser_selected_cases { } ["CRAM-MD5"]).2 (by simp)⟩

/-- C8: with email notifications disabled the self-test returns its
explicit error whatever the network would do (no connection outcome is
consulted); and the raced client setup treats a context error whose
message is exactly `"context canceled"` as success, while any other
context error message becomes a wrapped connect-phase error — the two
are told apart only by comparing the message text. -/
theorem testConnection_guard_and_cancel_text (config : SMTPConfig)
    (net : NetBehavior) (msg : String)
    (hoff : config.SendEmailNotifications = false)
    (hmsg : msg ≠ "context canceled") :
    TestConnection config net = .error "SendEmailNotifications is not true" ∧
    setupPhase (.ctxDone (some "context canceled")) = .ok () ∧
    setupPhase (.ctxDone (some msg)) =
      .error (wrap "unable to connect to the SMTP server" msg) := by
  refine ⟨?_, by simp [setupPhase], ?_⟩
  · simp [TestConnection, hoff]
  · simp [setupPhase, hmsg]

/-- Witness for C8 at a concrete disabled configuration and a concrete
non-benign context error message. -/
theorem testConnection_guard_and_cancel_text_witness :
    ({ } : SMTPConfig).SendEmailNotifications = false ∧
    "context deadline exceeded" ≠ "context canceled" ∧
    TestConnection { } { } = .error "SendEmailNotifications is not true" :=
  ⟨rfl, by decide,
    (testConnection_guard_and_cancel_text { } { } "context deadline exceeded" rfl
      (by decide)).1⟩

/-- C9: a configuration with an empty server address makes the send
operation succeed immediately, whatever the network, client and
converter would do — no connection outcome is consulted and nothing is
transmitted (`ok none`). -/
theorem sendMail_empty_server_skips (m : mailData) (config : SMTPConfig)
    (net : NetBehavior) (client : ClientBehavior) (conv : Except String String)
    (h : config.Server = "") :
    sendMailUsingConfigAdvanced m config net client conv = .ok none := by
  simp [sendMailUsingConfigAdvanced, h]

/-- Witness for C9 at concrete inputs with an empty server address. -/
theorem sendMail_empty_server_skips_witness :
    ({ } : SMTPConfig).Server = "" ∧
    sendMailUsingConfigAdvanced { } { } { } { } (.ok "") = .ok none :=
  ⟨rfl, sendMail_empty_server_skips { } { } { } { } (.ok "") rfl⟩

/-- C10: a failing HTML-to-text conversion never fails the send: the run
with a conversion error is identical to the run with an empty plain-text
alternative, and whether the send succeeds is independent of the
conversion outcome. -/
theorem sendMail_conversion_failure_not_fatal (c : ClientBehavior) (m : mailData)
    (e t : String) :
    SendMail c m (.error e) = SendMail c m (.ok "") ∧
    exceptOk (SendMail c m (.error e)) = exceptOk (SendMail c m (.ok t)) := by
  constructor
  · rfl
  · unfold SendMail exceptOk
    rcases c with ⟨mr, rr, dr, wr, cr⟩
    cases mr <;> cases rr <;> cases dr <;> cases wr <;> cases cr <;> rfl

end Spec2Proof
